import Mathlib

/-!
Verification of the query-orchestration engine of `world_pop_analysis`
(`src/worldpop_helper.py`, with the relevant caller paths of
`src/analysis.py` and the fetch wrapper of `src/req_http.py`).

The Python code is shallowly embedded: the remote HTTP endpoints are
modelled as oracle functions supplied to each definition, Python `dict`s
are modelled as insertion-ordered association lists with last-wins lookup
(matching CPython's ordered dicts), Python exceptions (`KeyError`,
`ValueError`, `IndexError`) are modelled with `Option`, and Python floats
are modelled with `Rat` (every numeric value exercised by the claims is
integral and hence exactly representable in a double).
-/

/-! ## Python container primitives -/

/-- Python list indexing `l[i]` with negative-index support:
`l[i]` is `l[len l + i]` for `i < 0`; `none` models `IndexError`. -/
def pyIndex {α : Type} (l : List α) (i : Int) : Option α :=
  if 0 ≤ i then l.get? i.toNat
  else if 0 ≤ i + l.length then l.get? (i + l.length).toNat
  else none

/-- Lookup in a Python dict modelled as an insertion-ordered association
list: a repeated key overwrites, so the last binding wins. -/
def dictLookup {α β : Type} [DecidableEq α] (l : List (α × β)) (k : α) : Option β :=
  ((l.filter (fun p => p.1 = k)).getLast?).map Prod.snd

/-- Python dict assignment `d[k] = v`: overwrite in place if the key is
present (keeping its position), else append the new binding. -/
def dictInsert {α β : Type} [DecidableEq α] (l : List (α × β)) (k : α) (v : β) :
    List (α × β) :=
  if l.any (fun p => p.1 = k) then l.map (fun p => if p.1 = k then (k, v) else p)
  else l ++ [(k, v)]

/-- Python `range(s, e + 1)`, the iteration sequence of
`__next_subquery` (src/worldpop_helper.py line 73). -/
def pyRange (s e : Int) : List Int :=
  (List.range (e + 1 - s).toNat).map (fun (i : Nat) => s + (i : Int))

/-- Sequential evaluation of a list comprehension in which each element
may raise (modelled by `Option`): the first failure aborts the whole
comprehension. -/
def mapOption {α β : Type} (f : α → Option β) : List α → Option (List β)
  | [] => some []
  | a :: l =>
    match f a, mapOption f l with
    | some b, some bs => some (b :: bs)
    | _, _ => none

/-! ## JSON values and Python scalar conversions -/

/-- JSON values as delivered by `req_http.http_get` (src/req_http.py line 8).
Numeric payloads in every claim are integers, so `num` carries an `Int`. -/
inductive Json : Type
  | num (n : Int)
  | str (s : String)
  | bool (b : Bool)
  | null
  | arr (l : List Json)
  | obj (l : List (String × Json))

/-- Digit characters accepted by Python `int()`/`float()`. -/
def charDigit? (c : Char) : Option Nat :=
  if 48 ≤ c.toNat ∧ c.toNat ≤ 57 then some (c.toNat - 48) else none

/-- Value of a most-significant-first digit string; `none` if any
character is not a decimal digit.  The empty list denotes value `0` and is
ruled out separately by the callers. -/
def digitsVal? (l : List Char) : Option Nat :=
  l.foldl
    (fun acc c =>
      match acc, charDigit? c with
      | some a, some d => some (10 * a + d)
      | _, _ => none)
    (some 0)

/-- Python `float()` on the non-negative decimal literals carried by the
WorldPop payloads (digits with an optional fractional part, such as
`"1234.0"` or `"10"`).  Signs, exponents and specials are outside the
wire format and outside this model; `none` models `ValueError`. -/
def parseDecimalChars (l : List Char) : Option Rat :=
  match l.dropWhile (fun c => c != '.') with
  | [] =>
    if l.isEmpty then none
    else (digitsVal? l).map (fun n => ((n : Nat) : Rat))
  | _ :: frac =>
    let intPart := l.takeWhile (fun c => c != '.')
    if intPart.isEmpty && frac.isEmpty then none
    else
      match digitsVal? intPart, digitsVal? frac with
      | some a, some b => some ((a : Rat) + (b : Rat) / (10 : Rat) ^ frac.length)
      | _, _ => none

/-- Python `float(s)` for a string payload. -/
def parseDecimal (s : String) : Option Rat :=
  parseDecimalChars s.data

/-- JSON serialization of a string body, escaping the two characters that
`json.dumps` must escape in the payloads in scope. -/
def escapeJsonChar (c : Char) : List Char :=
  if c = '"' then ['\\', '"'] else if c = '\\' then ['\\', '\\'] else [c]

/-- Body of a `json.dumps` string literal. -/
def escapeJson (s : String) : String :=
  String.mk (s.data.foldr (fun c acc => escapeJsonChar c ++ acc) [])

mutual

/-- Python `json.dumps` with its default separators `", "` and `": "`,
used verbatim in `__generate_query_string` (src/worldpop_helper.py
line 46). -/
def dumpJson : Json → String
  | Json.num n => toString n
  | Json.str s => "\"" ++ escapeJson s ++ "\""
  | Json.bool b => if b then "true" else "false"
  | Json.null => "null"
  | Json.arr l => "[" ++ dumpArr l ++ "]"
  | Json.obj l => "\x7b" ++ dumpObj l ++ "\x7d"

/-- `json.dumps` body of an array. -/
def dumpArr : List Json → String
  | [] => ""
  | [x] => dumpJson x
  | x :: xs => dumpJson x ++ ", " ++ dumpArr xs

/-- `json.dumps` body of an object. -/
def dumpObj : List (String × Json) → String
  | [] => ""
  | [(k, v)] => "\"" ++ escapeJson k ++ "\": " ++ dumpJson v
  | (k, v) :: xs => "\"" ++ escapeJson k ++ "\": " ++ dumpJson v ++ ", " ++ dumpObj xs

end

/-- Python `str()` on JSON scalars, as applied to task ids
(`str(results["taskid"])`, src/worldpop_helper.py line 60, and the
f-string of line 83).  Containers never appear as task ids; for them the
JSON serialization stands in for Python `repr`. -/
def pyStr : Json → String
  | Json.num n => toString n
  | Json.str s => s
  | Json.bool b => if b then "True" else "False"
  | Json.null => "None"
  | j => dumpJson j

/-- Python `int()` on the JSON values reaching
`__transform_pyramid_to_objects`; `none` models `ValueError`/`TypeError`. -/
def pyInt : Json → Option Int
  | Json.num n => some n
  | Json.str s =>
    match s.data with
    | '-' :: rest =>
      if rest.isEmpty then none else (digitsVal? rest).map (fun n => -(n : Int))
    | l => if l.isEmpty then none else (digitsVal? l).map (fun n => (n : Int))
  | Json.bool b => some (if b then 1 else 0)
  | _ => none

/-- Python `float()` on the JSON values reaching the result
transformations; `none` models `ValueError`/`TypeError`. -/
def pyFloat : Json → Option Rat
  | Json.num n => some ((n : Int) : Rat)
  | Json.str s => parseDecimal s
  | Json.bool b => some (if b then 1 else 0)
  | _ => none

/-! ## The orchestrator data model (src/worldpop_helper.py) -/

/-- `DATASETS` (src/worldpop_helper.py line 9). -/
def DATASETS : List String := ["wpgppop", "wpgpas"]

/-- `API_URL_BASE` (src/worldpop_helper.py line 10). -/
def API_URL_BASE : String := "https://api.worldpop.org/v1"

/-- `AgeSexClass` (src/worldpop_helper.py lines 13-18). -/
structure AgeSexClass : Type where
  number : Int
  ageRange : String
  male : Rat
  female : Rat
deriving DecidableEq

/-- Instance state of `WorldPopAdvancedQuery`: the four constructor
arguments plus the private `__query_tasks_by_year` dict
(src/worldpop_helper.py lines 31-35), modelled as an insertion-ordered
association list. -/
structure WorldPopAdvancedQuery : Type where
  dataset_id : Int
  start_year : Int
  end_year : Int
  geojson : Json
  query_tasks_by_year : List (Int × String)

/-- `WorldPopAdvancedQuery.__init__` (src/worldpop_helper.py lines 25-35):
it only stores its arguments and creates the empty task dict; it performs
no validation of any kind and cannot fail. -/
def init (dataset_id start_year end_year : Int) (geojson : Json) :
    WorldPopAdvancedQuery :=
  ⟨dataset_id, start_year, end_year, geojson, []⟩

/-- `__generate_query_string` (src/worldpop_helper.py lines 37-47).
`none` models the `IndexError` of `DATASETS[self.__dataset_id - 1]`; the
geojson component is the raw `json.dumps` output, interpolated into the
f-string with no URL-encoding. -/
def generate_query_string (q : WorldPopAdvancedQuery) (year : Int) : Option String :=
  (pyIndex DATASETS (q.dataset_id - 1)).map (fun dataset_name =>
    API_URL_BASE ++ "/services/stats?dataset=" ++ dataset_name ++ "&year=" ++
      toString year ++ "&geojson=" ++ dumpJson q.geojson)

/-- JSON body answering a submission `GET`; the code reads its `taskid`
key (src/worldpop_helper.py lines 60-61). -/
structure SubmitResponse : Type where
  taskid : Json

/-- `__create_query_task` (src/worldpop_helper.py lines 49-61).  The
remote call is the oracle `submit : year ↦ Option body` (`none` models
`http_get` returning `None`).  On success the year is mapped to
`str(taskid)` in `__query_tasks_by_year` and the raw (unstringified)
`taskid` is returned; on failure the state is unchanged and `None` is
returned. -/
def create_query_task (submit : Int → Option SubmitResponse)
    (q : WorldPopAdvancedQuery) (year : Int) :
    WorldPopAdvancedQuery × Option Json :=
  match submit year with
  | some results =>
    ({ q with query_tasks_by_year :=
        dictInsert q.query_tasks_by_year year (pyStr results.taskid) },
      some results.taskid)
  | none => (q, none)

/-- The loop body of `__next_subquery` iterated over a list of years:
each year submits one task and appends its yielded task id. -/
def subquery_fold (submit : Int → Option SubmitResponse) :
    List Int → WorldPopAdvancedQuery × List (Option Json) →
      WorldPopAdvancedQuery × List (Option Json)
  | [], p => p
  | y :: ys, p =>
    let step := create_query_task submit p.1 y
    subquery_fold submit ys (step.1, p.2 ++ [step.2])

/-- `__next_subquery` (src/worldpop_helper.py lines 63-76): one submission
per year of `range(start_year, end_year + 1)`, in iteration order. -/
def next_subquery (submit : Int → Option SubmitResponse)
    (q : WorldPopAdvancedQuery) : WorldPopAdvancedQuery × List (Option Json) :=
  subquery_fold submit (pyRange q.start_year q.end_year) (q, [])

/-- `perform_us_city_query` (src/worldpop_helper.py lines 120-131): it
collects the task ids yielded by `__next_subquery`. -/
def perform_us_city_query (submit : Int → Option SubmitResponse)
    (q : WorldPopAdvancedQuery) : WorldPopAdvancedQuery × List (Option Json) :=
  next_subquery submit q

/-- The `data` member of a terminal poll response: either a
`total_population` scalar or an `agesexpyramid` row list
(src/worldpop_helper.py lines 150 and 156); each pyramid row is a JSON
object. -/
inductive TaskData : Type
  | totalPopulation (value : Json)
  | pyramid (rows : List (List (String × Json)))

/-- JSON body answering a poll `GET {base}/tasks/{taskid}`
(src/req_http.py via `__monitor_query_task`, src/worldpop_helper.py
lines 78-85). -/
structure PollResponse : Type where
  taskid : String
  status : String
  error : Bool
  error_message : String
  data : TaskData

/-- `__next_monitor` (src/worldpop_helper.py lines 87-104).  The oracle
`poll t k` is the body of the k-th poll of task `t` (polling the same
still-running task again, after `time.sleep(1)`, may observe a later
server state, hence the attempt counter).  `fuel` bounds the number of
loop iterations; `none` models a poll loop that has not terminated within
`fuel` iterations.  Only the head task is polled; a finished head (with
or without task-level error) is deleted from the outstanding list and its
response is yielded. -/
def next_monitor (poll : Json → Nat → PollResponse) :
    Nat → List Json → Nat → List PollResponse → Option (List PollResponse)
  | _, [], _, acc => some acc
  | 0, _ :: _, _, _ => none
  | fuel + 1, t :: ts, k, acc =>
    if (poll t k).status = "finished" then
      next_monitor poll fuel ts 0 (acc ++ [poll t k])
    else
      next_monitor poll fuel (t :: ts) (k + 1) acc

/-- `__transform_pyramid_to_objects` (src/worldpop_helper.py
lines 106-118), per row: `AgeSexClass(int(item["class"]),
str(item["age"]), float(item["male"]), float(item["female"]))`.
`none` models `KeyError` on a missing key or `ValueError` on a bad
conversion. -/
def decode_pyramid_row (item : List (String × Json)) : Option AgeSexClass := do
  let c ← dictLookup item "class"
  let number ← pyInt c
  let a ← dictLookup item "age"
  let m ← dictLookup item "male"
  let male ← pyFloat m
  let f ← dictLookup item "female"
  let female ← pyFloat f
  pure (AgeSexClass.mk number (pyStr a) male female)

/-- The list comprehension of `__transform_pyramid_to_objects`. -/
def transform_pyramid_to_objects (rows : List (List (String × Json))) :
    Option (List AgeSexClass) :=
  mapOption decode_pyramid_row rows

/-- A per-year result value: the scalar of a `TotalPopulation` query or
the bucket list of an `AgeSexStructure` query. -/
inductive ResultValue : Type
  | total (v : Rat)
  | pyramid (l : List AgeSexClass)
deriving DecidableEq

/-- Outcome of `retrieve_results` past the monitoring phase
(src/worldpop_helper.py lines 141-164): `failure msg` is the error branch
that prints the first `error_message` and returns `None`; `success m`
carries the returned year-keyed dict; `exn` is an uncaught Python
exception (`KeyError` on a missing dict key, `ValueError` on a bad
numeric string). -/
inductive RetrieveOutcome : Type
  | exn
  | failure (msg : String)
  | success (m : List (Int × ResultValue))

/-- The dataset-dependent dict comprehensions of `retrieve_results`
(src/worldpop_helper.py lines 148-159), keying each transformed payload
by the poll response's `taskid`. -/
def transform_raw_results (dataset_id : Int) (raws : List PollResponse) :
    Option (List (String × ResultValue)) :=
  if dataset_id = 1 then
    mapOption
      (fun r =>
        match r.data with
        | TaskData.totalPopulation v =>
          (pyFloat v).map (fun x => (r.taskid, ResultValue.total x))
        | _ => none)
      raws
  else
    mapOption
      (fun r =>
        match r.data with
        | TaskData.pyramid rows =>
          (transform_pyramid_to_objects rows).map
            (fun l => (r.taskid, ResultValue.pyramid l))
        | _ => none)
      raws

/-- The aggregation phase of `retrieve_results`
(src/worldpop_helper.py lines 141-164), applied to the terminal raw
responses collected by `__next_monitor` and to the stored
`__query_tasks_by_year` dict: if any response carries `error = true`
print the first `error_message` and return `None`; otherwise transform
the payloads by dataset kind and re-key them from `taskid` back to
`year`. -/
def retrieve_results_pure (dataset_id : Int) (stored : List (Int × String))
    (raws : List PollResponse) : RetrieveOutcome :=
  if raws.any (fun r => r.error) then
    match (raws.filter (fun r => r.error)).head? with
    | some r => RetrieveOutcome.failure r.error_message
    | none => RetrieveOutcome.exn
  else
    match transform_raw_results dataset_id raws with
    | none => RetrieveOutcome.exn
    | some rawMap =>
      match mapOption (fun p : Int × String =>
          (dictLookup rawMap p.2).map (fun v => (p.1, v))) stored with
      | none => RetrieveOutcome.exn
      | some results => RetrieveOutcome.success results

/-- `retrieve_results` (src/worldpop_helper.py lines 133-164): monitor the
outstanding `taskids`, then aggregate.  The second component of the
result is the final value of the caller's `taskids` list object:
`__next_monitor` executes `del taskids[0]` for every finished task, so
the list the caller passed in has been emptied in place when the call
returns. -/
def retrieve_results (poll : Json → Nat → PollResponse) (fuel : Nat)
    (q : WorldPopAdvancedQuery) (taskids : List Json) :
    Option (RetrieveOutcome × List Json) :=
  match next_monitor poll fuel taskids 0 [] with
  | none => none
  | some raws => some (retrieve_results_pure q.dataset_id q.query_tasks_by_year raws, [])

/-! ## The caller paths of src/analysis.py in scope -/

/-- The range check of `select_variable` (src/analysis.py lines 106-111):
only values below `0` or above `2` are rejected. -/
def select_variable_check (v : Int) : Option Int :=
  if v < 0 ∨ v > 2 then none else some v

/-- Observable outcome of `execute_query` (src/analysis.py lines 131-159)
after the year inputs have been read. -/
inductive ExecOutcome : Type
  | invalidRange
  | noData
  | queryError (msg : String)
  | emptyResults
  | results (m : List (Int × ResultValue))
  | exn

/-- `execute_query` (src/analysis.py lines 131-159) from the range check
onward: reject an inverted range before constructing the orchestrator;
submit one task per year; call `retrieve_results` only when every
submission returned a task id, otherwise print the "No data can be
obtained" message. -/
def execute_query_flow (submit : Int → Option SubmitResponse)
    (poll : Json → Nat → PollResponse) (fuel : Nat)
    (selected_variable start_year end_year : Int) (geojson : Json) :
    Option ExecOutcome :=
  if start_year > end_year then some ExecOutcome.invalidRange
  else
    let q := init selected_variable start_year end_year geojson
    let submitted := perform_us_city_query submit q
    if submitted.2.all Option.isSome then
      match retrieve_results poll fuel submitted.1 (submitted.2.filterMap id) with
      | none => none
      | some out =>
        match out.1 with
        | RetrieveOutcome.exn => some ExecOutcome.exn
        | RetrieveOutcome.failure msg => some (ExecOutcome.queryError msg)
        | RetrieveOutcome.success m =>
          if m.isEmpty then some ExecOutcome.emptyResults
          else some (ExecOutcome.results m)
    else some ExecOutcome.noData

/-- The argument `execute_query` passes to `retrieve_results`, or `none`
when the call never happens (src/analysis.py lines 139-141: the
`all(taskid is not None ...)` guard skips monitoring entirely as soon as
one submission failed). -/
def monitor_invoked_on (submit : Int → Option SubmitResponse)
    (selected_variable start_year end_year : Int) (geojson : Json) :
    Option (List Json) :=
  if start_year > end_year then none
  else
    let submitted :=
      perform_us_city_query submit (init selected_variable start_year end_year geojson)
    if submitted.2.all Option.isSome then some (submitted.2.filterMap id)
    else none

/-! ## Definitions following the spec's words, for refinement claims -/

/-- Modelled from the spec: percent-encoding of one character in the
style of `urllib.parse.quote` (unreserved characters and `/` kept, all
others written `%XX`); no such step exists anywhere in src/. -/
def urlquoteChar (c : Char) : List Char :=
  if c.isAlphanum || c == '_' || c == '.' || c == '-' || c == '~' || c == '/' then [c]
  else
    ['%',
      (if c.toNat / 16 % 16 < 10 then Char.ofNat (48 + c.toNat / 16 % 16)
       else Char.ofNat (55 + c.toNat / 16 % 16)),
      (if c.toNat % 16 < 10 then Char.ofNat (48 + c.toNat % 16)
       else Char.ofNat (55 + c.toNat % 16))]

/-- Modelled from the spec: URL-encoding of a serialized polygon. -/
def urlquote (s : String) : String :=
  String.mk (s.data.foldr (fun c acc => urlquoteChar c ++ acc) [])

/-- Modelled from the spec (§6 wire contract): the submission URL with an
URL-encoded geojson component, `GET
{base}/services/stats?dataset={token}&year={year}&geojson={urlencoded
polygon JSON}`. -/
def spec_query_string (q : WorldPopAdvancedQuery) (year : Int) : Option String :=
  (pyIndex DATASETS (q.dataset_id - 1)).map (fun dataset_name =>
    API_URL_BASE ++ "/services/stats?dataset=" ++ dataset_name ++ "&year=" ++
      toString year ++ "&geojson=" ++ urlquote (dumpJson q.geojson))

/-- Modelled from the spec (§4.1 Construct): a constructor that
re-validates the year range defensively and fails with
`InvalidRangeError` when `startYear > endYear`; the constructor in src/
has no such check. -/
def spec_validated_init (dataset_id start_year end_year : Int) (geojson : Json) :
    Except String WorldPopAdvancedQuery :=
  if start_year > end_year then Except.error "InvalidRangeError"
  else Except.ok (init dataset_id start_year end_year geojson)

/-! ## Shared lemmas -/

theorem pyRange_length (s e : Int) : (pyRange s e).length = (e + 1 - s).toNat := by
  unfold pyRange
  rw [List.length_map, List.length_range]

theorem pyRange_pairwise (s e : Int) :
    List.Pairwise (fun a b : Int => a < b) (pyRange s e) := by
  unfold pyRange
  refine List.Pairwise.map _ ?_ (List.pairwise_lt_range _)
  intro a b hab
  omega

theorem pyRange_mem (s e y : Int) : y ∈ pyRange s e ↔ s ≤ y ∧ y ≤ e := by
  unfold pyRange
  simp only [List.mem_map, List.mem_range]
  constructor
  · rintro ⟨i, hi, rfl⟩
    omega
  · rintro ⟨h1, h2⟩
    exact ⟨(y - s).toNat, by omega, by omega⟩

theorem subquery_fold_snd (submit : Int → Option SubmitResponse) :
    ∀ (years : List Int) (q : WorldPopAdvancedQuery) (acc : List (Option Json)),
      (subquery_fold submit years (q, acc)).2 =
        acc ++ years.map (fun y => (submit y).map SubmitResponse.taskid) := by
  intro years
  induction years with
  | nil => intro q acc; simp [subquery_fold]
  | cons y ys ih =>
    intro q acc
    simp only [subquery_fold]
    rcases hs : submit y with _ | r
    · simp [create_query_task, hs, ih]
    · simp [create_query_task, hs, ih]

theorem perform_snd (submit : Int → Option SubmitResponse)
    (dataset_id s e : Int) (g : Json) :
    (perform_us_city_query submit (init dataset_id s e g)).2 =
      (pyRange s e).map (fun y => (submit y).map SubmitResponse.taskid) := by
  unfold perform_us_city_query next_subquery
  rw [subquery_fold_snd]
  simp [init]

theorem mapOption_forall₂ {α β : Type} (f : α → Option β) :
    ∀ (l : List α) (res : List β), mapOption f l = some res →
      List.Forall₂ (fun a b => f a = some b) l res := by
  intro l
  induction l with
  | nil =>
    intro res h
    simp [mapOption] at h
    subst h
    exact List.Forall₂.nil
  | cons a l ih =>
    intro res h
    simp only [mapOption] at h
    rcases hfa : f a with _ | b <;> rw [hfa] at h
    · exact absurd h (by simp)
    · rcases hml : mapOption f l with _ | bs <;> rw [hml] at h
      · exact absurd h (by simp)
      · simp only [Option.some.injEq] at h
        rw [← h]
        exact List.Forall₂.cons hfa (ih bs hml)

/-! ## C1 -/

/-- C1: if any terminal raw response has its error flag set, aggregation
returns the failure branch carrying the first encountered error message,
and no success value (no `ResultMap`, hence no successfully computed
year) is ever produced. -/
theorem any_task_error_invalidates_batch (dataset_id : Int)
    (stored : List (Int × String)) (raws : List PollResponse)
    (h : raws.any (fun r => r.error) = true) :
    (∃ r, (raws.filter (fun r => r.error)).head? = some r ∧
        retrieve_results_pure dataset_id stored raws =
          RetrieveOutcome.failure r.error_message) ∧
    ∀ m, retrieve_results_pure dataset_id stored raws ≠ RetrieveOutcome.success m := by
  have hne : raws.filter (fun r => r.error) ≠ [] := by
    rcases List.any_eq_true.mp h with ⟨r, hr, hrerr⟩
    intro hnil
    have hmem : r ∈ raws.filter (fun r => r.error) :=
      List.mem_filter.mpr ⟨hr, hrerr⟩
    rw [hnil] at hmem
    simp at hmem
  rcases hhead : (raws.filter (fun r => r.error)).head? with _ | r
  · rw [List.head?_eq_none_iff] at hhead
    exact absurd hhead hne
  · constructor
    · exact ⟨r, hhead, by simp [retrieve_results_pure, h, hhead]⟩
    · intro m hm
      simp [retrieve_results_pure, h, hhead] at hm

/-- C1 witness at a concrete erroring batch. -/
theorem any_task_error_invalidates_batch_witness :
    ([(⟨"t", "finished", true, "boom",
        TaskData.totalPopulation (Json.str "1")⟩ : PollResponse)].any
      (fun r => r.error) = true) ∧
    ((∃ r, ([(⟨"t", "finished", true, "boom",
          TaskData.totalPopulation (Json.str "1")⟩ : PollResponse)].filter
            (fun r => r.error)).head? = some r ∧
        retrieve_results_pure 1 []
            [⟨"t", "finished", true, "boom", TaskData.totalPopulation (Json.str "1")⟩] =
          RetrieveOutcome.failure r.error_message) ∧
      ∀ m, retrieve_results_pure 1 []
          [⟨"t", "finished", true, "boom", TaskData.totalPopulation (Json.str "1")⟩] ≠
        RetrieveOutcome.success m) :=
  ⟨rfl, any_task_error_invalidates_batch 1 []
    [⟨"t", "finished", true, "boom", TaskData.totalPopulation (Json.str "1")⟩] rfl⟩

/-! ## C2 -/

/-- C2: for `startYear ≤ endYear` the submission phase issues exactly
`endYear - startYear + 1` attempts, one per year of the range, in
strictly ascending year order; for `startYear = endYear` exactly one
task is submitted. -/
theorem submitall_one_task_per_year_ascending
    (submit : Int → Option SubmitResponse) (dataset_id s e : Int) (g : Json)
    (h : s ≤ e) :
    (perform_us_city_query submit (init dataset_id s e g)).2 =
      (pyRange s e).map (fun y => (submit y).map SubmitResponse.taskid) ∧
    (perform_us_city_query submit (init dataset_id s e g)).2.length =
      (e - s + 1).toNat ∧
    List.Pairwise (fun a b : Int => a < b) (pyRange s e) ∧
    (∀ y : Int, y ∈ pyRange s e ↔ s ≤ y ∧ y ≤ e) ∧
    (s = e →
      (perform_us_city_query submit (init dataset_id s e g)).2 =
        [(submit s).map SubmitResponse.taskid]) := by
  refine ⟨perform_snd submit dataset_id s e g, ?_,
    pyRange_pairwise s e, fun y => pyRange_mem s e y, ?_⟩
  · rw [perform_snd submit dataset_id s e g]
    simp [pyRange_length]
    omega
  · intro hse
    subst hse
    rw [perform_snd submit dataset_id s s g]
    have h1 : pyRange s s = [s] := by
      unfold pyRange
      rw [show (s + 1 - s).toNat = 1 by omega,
        show List.range 1 = [0] from rfl]
      simp
    rw [h1, List.map_singleton]

/-- C2 witness at `startYear = endYear = 2020`. -/
theorem submitall_one_task_per_year_ascending_witness :
    ((2020 : Int) ≤ 2020) ∧
    ((perform_us_city_query (fun _ => some ⟨Json.num 7⟩)
        (init 1 2020 2020 Json.null)).2 =
      (pyRange 2020 2020).map
        (fun y => ((fun _ => some (⟨Json.num 7⟩ : SubmitResponse)) y).map
          SubmitResponse.taskid) ∧
    (perform_us_city_query (fun _ => some ⟨Json.num 7⟩)
        (init 1 2020 2020 Json.null)).2.length = ((2020 : Int) - 2020 + 1).toNat ∧
    List.Pairwise (fun a b : Int => a < b) (pyRange 2020 2020) ∧
    (∀ y : Int, y ∈ pyRange 2020 2020 ↔ 2020 ≤ y ∧ y ≤ 2020) ∧
    ((2020 : Int) = 2020 →
      (perform_us_city_query (fun _ => some ⟨Json.num 7⟩)
          (init 1 2020 2020 Json.null)).2 =
        [((fun _ => some (⟨Json.num 7⟩ : SubmitResponse)) (2020 : Int)).map
          SubmitResponse.taskid])) :=
  ⟨by decide, submitall_one_task_per_year_ascending
    (fun _ => some ⟨Json.num 7⟩) 1 2020 2020 Json.null (by decide)⟩

/-! ## C5 -/

/-- C5 counterexample: at a concrete polygon the URL built by
`__generate_query_string` differs from the spec's URL-encoded form — the
geojson component is the raw `json.dumps` output, not URL-encoded. -/
theorem query_string_not_urlencoded_counterexample :
    generate_query_string (init 1 2020 2020 (Json.obj [("a", Json.num 1)])) 2020 ≠
      spec_query_string (init 1 2020 2020 (Json.obj [("a", Json.num 1)])) 2020 ∧
    generate_query_string (init 1 2020 2020 (Json.obj [("a", Json.num 1)])) 2020 =
      some ("https://api.worldpop.org/v1/services/stats?dataset=wpgppop&year=2020" ++
        "&geojson=\x7b\"a\": 1\x7d") ∧
    spec_query_string (init 1 2020 2020 (Json.obj [("a", Json.num 1)])) 2020 =
      some ("https://api.worldpop.org/v1/services/stats?dataset=wpgppop&year=2020" ++
        "&geojson=%7B%22a%22%3A%201%7D") := by
  refine ⟨by decide, rfl, rfl⟩

/-- C5 amended: the submission URL has the form
`{base}/services/stats?dataset={token}&year={year}&geojson={polygon
JSON}` where the geojson component is the raw `json.dumps` serialization
of the polygon, with no URL-encoding applied by this function. -/
theorem query_string_raw_json_form (s e y : Int) (g : Json) :
    generate_query_string (init 1 s e g) y =
      some (API_URL_BASE ++ "/services/stats?dataset=" ++ "wpgppop" ++ "&year=" ++
        toString y ++ "&geojson=" ++ dumpJson g) ∧
    generate_query_string (init 2 s e g) y =
      some (API_URL_BASE ++ "/services/stats?dataset=" ++ "wpgpas" ++ "&year=" ++
        toString y ++ "&geojson=" ++ dumpJson g) :=
  ⟨rfl, rfl⟩

/-! ## C6 -/

/-- C6 counterexample: constructing with `startYear = 2021 >
endYear = 2020` does not fail — `__init__` stores the inverted range
as-is, while the spec-modelled validating constructor rejects it. -/
theorem init_accepts_inverted_range_counterexample :
    init 1 2021 2020 Json.null =
      WorldPopAdvancedQuery.mk 1 2021 2020 Json.null [] ∧
    spec_validated_init 1 2021 2020 Json.null =
      Except.error "InvalidRangeError" :=
  ⟨rfl, rfl⟩

/-- C6 amended: `__init__` performs no validation whatever (it stores the
fields of any range, inverted or not, and cannot fail); the
`startYear > endYear` check lives only in the caller `execute_query`,
which reports an invalid range and returns before the orchestrator is
ever constructed. -/
theorem init_no_validation_caller_checks_range
    (dataset_id s e : Int) (g : Json) (h : s > e) :
    init dataset_id s e g = WorldPopAdvancedQuery.mk dataset_id s e g [] ∧
    (∀ (submit : Int → Option SubmitResponse) (poll : Json → Nat → PollResponse)
        (fuel : Nat),
      execute_query_flow submit poll fuel dataset_id s e g =
        some ExecOutcome.invalidRange) ∧
    spec_validated_init dataset_id s e g = Except.error "InvalidRangeError" := by
  refine ⟨rfl, ?_, ?_⟩
  · intro submit poll fuel
    simp [execute_query_flow, h]
  · simp [spec_validated_init, h]

/-- C6 witness at the inverted range (2021, 2020). -/
theorem init_no_validation_caller_checks_range_witness :
    ((2021 : Int) > 2020) ∧
    execute_query_flow (fun _ => some ⟨Json.num 7⟩)
        (fun _ _ => ⟨"7", "finished", false, "",
          TaskData.totalPopulation (Json.str "1234.0")⟩) 0 1 2021 2020 Json.null =
      some ExecOutcome.invalidRange :=
  ⟨by decide,
    (init_no_validation_caller_checks_range 1 2021 2020 Json.null (by decide)).2.1
      (fun _ => some ⟨Json.num 7⟩)
      (fun _ _ => ⟨"7", "finished", false, "",
        TaskData.totalPopulation (Json.str "1234.0")⟩) 0⟩

/-! ## C10 -/

/-- C10 counterexample: `dataset_id = -2` also raises `IndexError`
(`DATASETS[-3]` is out of range even with negative indexing), so the
claim's "an IndexError occurs only for dataset_id >= 3" fails. -/
theorem dataset_index_error_not_only_ge_three_counterexample :
    pyIndex DATASETS (-2 - 1) = none ∧ ¬(3 ≤ (-2 : Int)) :=
  ⟨rfl, by decide⟩

/-- C10 amended: dataset_id 0 passes the caller-side validation, resolves
via negative indexing to the last token "wpgpas", and behaves exactly
like dataset_id 2 both in URL construction and in result aggregation; an
`IndexError` occurs exactly for dataset_id ≥ 3 or dataset_id ≤ -2 (all
of which the caller-side validation rejects anyway). -/
theorem dataset_zero_aliases_dataset_two :
    select_variable_check 0 = some 0 ∧
    pyIndex DATASETS (0 - 1) = some "wpgpas" ∧
    (∀ (s e y : Int) (g : Json),
      generate_query_string (init 0 s e g) y =
        generate_query_string (init 2 s e g) y) ∧
    (∀ (stored : List (Int × String)) (raws : List PollResponse),
      retrieve_results_pure 0 stored raws = retrieve_results_pure 2 stored raws) ∧
    (∀ d : Int, pyIndex DATASETS (d - 1) = none ↔ 3 ≤ d ∨ d ≤ -2) := by
  refine ⟨rfl, rfl, fun s e y g => rfl, fun stored raws => rfl, fun d => ?_⟩
  unfold pyIndex
  split_ifs with h1 h2
  · rw [List.get?_eq_none]
    simp only [DATASETS, List.length_cons, List.length_nil]
    omega
  · rw [List.get?_eq_none]
    have hlen : DATASETS.length = 2 := rfl
    rw [hlen] at h2 ⊢
    omega
  · simp only [DATASETS, List.length_cons, List.length_nil] at h2
    constructor
    · intro _
      right
      omega
    · intro _
      rfl

/-! ## C3 -/

/-- Concrete poll oracle used by witnesses: every task reports finished,
error-free, with a total-population payload, at its first poll. -/
def poll1234 : Json → Nat → PollResponse := fun _ _ =>
  ⟨"7", "finished", false, "", TaskData.totalPopulation (Json.str "1234.0")⟩

/-- Draining the head task: `n` unfinished polls followed by the first
finished one remove the head from the outstanding list and append its
terminal response, leaving the loop on the tail with a reset attempt
counter. -/
theorem next_monitor_head_drain (poll : Json → Nat → PollResponse)
    (t : Json) (ts : List Json) :
    ∀ (n k fuel : Nat) (acc : List PollResponse),
      (∀ m, m < n → (poll t (k + m)).status ≠ "finished") →
      (poll t (k + n)).status = "finished" →
      next_monitor poll (n + 1 + fuel) (t :: ts) k acc =
        next_monitor poll fuel ts 0 (acc ++ [poll t (k + n)]) := by
  intro n
  induction n with
  | zero =>
    intro k fuel acc _ hfin
    rw [Nat.add_zero] at hfin
    rw [show 0 + 1 + fuel = fuel + 1 by omega]
    simp only [next_monitor, hfin, if_true, Nat.add_zero]
  | succ n ih =>
    intro k fuel acc hmin hfin
    have h0 : ¬(poll t k).status = "finished" := by
      have := hmin 0 (by omega)
      simpa using this
    rw [show n + 1 + 1 + fuel = (n + 1 + fuel) + 1 by omega]
    simp only [next_monitor, h0, if_false]
    have hmin' : ∀ m, m < n → (poll t (k + 1 + m)).status ≠ "finished" := by
      intro m hm
      have := hmin (m + 1) (by omega)
      rwa [show k + (m + 1) = k + 1 + m by omega] at this
    have hfin' : (poll t (k + 1 + n)).status = "finished" := by
      rwa [show k + (n + 1) = k + 1 + n by omega] at hfin
    have := ih (k + 1) fuel acc hmin' hfin'
    rwa [show k + 1 + n = k + (n + 1) by omega] at this

/-- Draining the whole outstanding list: if every task eventually polls
finished, some fuel completes the loop having yielded, in list order,
exactly one terminal (first-finished) response per task. -/
theorem next_monitor_drain (poll : Json → Nat → PollResponse) :
    ∀ ts : List Json,
      (∀ t ∈ ts, ∃ n, (poll t n).status = "finished") →
      ∀ acc : List PollResponse,
        ∃ (fuel : Nat) (rest : List PollResponse),
          next_monitor poll fuel ts 0 acc = some (acc ++ rest) ∧
          List.Forall₂
            (fun t r => r.status = "finished" ∧
              ∃ n, r = poll t n ∧ (poll t n).status = "finished" ∧
                ∀ m, m < n → (poll t m).status ≠ "finished")
            ts rest := by
  intro ts
  induction ts with
  | nil =>
    intro _ acc
    exact ⟨0, [], by simp [next_monitor], List.Forall₂.nil⟩
  | cons t ts ih =>
    intro h acc
    have ht : ∃ n, (poll t n).status = "finished" := h t (by simp)
    have hts : ∀ u ∈ ts, ∃ n, (poll u n).status = "finished" :=
      fun u hu => h u (by simp [hu])
    rcases ih hts (acc ++ [poll t (Nat.find ht)]) with ⟨fuel, rest, hrun, hfa⟩
    refine ⟨Nat.find ht + 1 + fuel, poll t (Nat.find ht) :: rest, ?_, ?_⟩
    · rw [next_monitor_head_drain poll t ts (Nat.find ht) 0 fuel acc
        (fun m hm => by simpa using Nat.find_min ht (by simpa using hm))
        (by simpa using Nat.find_spec ht)]
      rw [show (0 : Nat) + Nat.find ht = Nat.find ht by omega]
      rw [hrun]
      simp
    · exact List.Forall₂.cons
        ⟨Nat.find_spec ht, Nat.find ht, rfl, Nat.find_spec ht,
          fun m hm => Nat.find_min ht hm⟩ hfa

/-- C3: if every outstanding task eventually polls as finished, the
monitor loop terminates (for some iteration budget) having yielded
exactly one terminal response per task id, in order, each the task's
first finished poll — no task is dropped; and on an empty outstanding
list the loop terminates immediately, for any budget. -/
theorem monitor_resolves_every_task_once (poll : Json → Nat → PollResponse)
    (taskids : List Json)
    (h : ∀ t ∈ taskids, ∃ n, (poll t n).status = "finished") :
    (∀ (fuel k : Nat) (acc : List PollResponse),
        next_monitor poll fuel [] k acc = some acc) ∧
    ∃ (fuel : Nat) (responses : List PollResponse),
      next_monitor poll fuel taskids 0 [] = some responses ∧
      List.Forall₂
        (fun t r => r.status = "finished" ∧
          ∃ n, r = poll t n ∧ (poll t n).status = "finished" ∧
            ∀ m, m < n → (poll t m).status ≠ "finished")
        taskids responses := by
  constructor
  · intro fuel k acc
    cases fuel <;> rfl
  · rcases next_monitor_drain poll taskids h [] with ⟨fuel, rest, hrun, hfa⟩
    exact ⟨fuel, rest, by simpa using hrun, hfa⟩

/-- C3 witness at a single task that finishes on its first poll. -/
theorem monitor_resolves_every_task_once_witness :
    (∀ t ∈ [Json.num 7], ∃ n, (poll1234 t n).status = "finished") ∧
    ((∀ (fuel k : Nat) (acc : List PollResponse),
        next_monitor poll1234 fuel [] k acc = some acc) ∧
      ∃ (fuel : Nat) (responses : List PollResponse),
        next_monitor poll1234 fuel [Json.num 7] 0 [] = some responses ∧
        List.Forall₂
          (fun t r => r.status = "finished" ∧
            ∃ n, r = poll1234 t n ∧ (poll1234 t n).status = "finished" ∧
              ∀ m, m < n → (poll1234 t m).status ≠ "finished")
          [Json.num 7] responses) :=
  ⟨fun _ _ => ⟨0, rfl⟩,
    monitor_resolves_every_task_once poll1234 [Json.num 7] (fun _ _ => ⟨0, rfl⟩)⟩

/-! ## C7 -/

/-- C7 counterexample: with every submission failing at `2020..2020`,
`retrieve_results` is never invoked at all — in particular it is not
invoked on an empty task list. -/
theorem all_submissions_fail_monitor_not_invoked_counterexample :
    monitor_invoked_on (fun _ => none) 1 2020 2020 Json.null = none ∧
    monitor_invoked_on (fun _ => none) 1 2020 2020 Json.null ≠ some [] := by
  have h0 : monitor_invoked_on (fun _ => none) 1 2020 2020 Json.null = none := rfl
  refine ⟨h0, ?_⟩
  rw [h0]
  simp

/-- C7 amended: if every per-year submission fails (and the range is
valid), the caller's `all(taskid is not None ...)` guard fails, so the
monitoring phase is skipped entirely (`retrieve_results` is never
called); the query ends with the "No data can be obtained" signal —
independent of the poll oracle and of any iteration budget — and no
exception is raised. -/
theorem all_submissions_fail_no_data
    (submit : Int → Option SubmitResponse) (dataset_id s e : Int) (g : Json)
    (hrange : s ≤ e) (hfail : ∀ y, submit y = none) :
    monitor_invoked_on submit dataset_id s e g = none ∧
    ∀ (poll : Json → Nat → PollResponse) (fuel : Nat),
      execute_query_flow submit poll fuel dataset_id s e g =
        some ExecOutcome.noData := by
  have hall : (perform_us_city_query submit (init dataset_id s e g)).2.all
      Option.isSome = false := by
    rw [perform_snd submit dataset_id s e g]
    have hmem : s ∈ pyRange s e := (pyRange_mem s e s).mpr ⟨le_refl s, hrange⟩
    rcases hb : ((pyRange s e).map
        (fun y => (submit y).map SubmitResponse.taskid)).all Option.isSome with _ | _
    · rfl
    · exfalso
      have := List.all_eq_true.mp hb ((submit s).map SubmitResponse.taskid)
        (List.mem_map_of_mem _ hmem)
      rw [hfail s] at this
      simp at this
  constructor
  · unfold monitor_invoked_on
    rw [if_neg (by omega)]
    simp only [hall]
    simp
  · intro poll fuel
    unfold execute_query_flow
    rw [if_neg (by omega)]
    simp only [hall]
    simp

/-- C7 witness at range 2020..2020 with an always-failing submitter. -/
theorem all_submissions_fail_no_data_witness :
    ((2020 : Int) ≤ 2020) ∧
    (∀ y : Int, (fun _ : Int => (none : Option SubmitResponse)) y = none) ∧
    (monitor_invoked_on (fun _ => none) 2 2020 2020 Json.null = none ∧
      ∀ (poll : Json → Nat → PollResponse) (fuel : Nat),
        execute_query_flow (fun _ => none) poll fuel 2 2020 2020 Json.null =
          some ExecOutcome.noData) :=
  ⟨by decide, fun _ => rfl,
    all_submissions_fail_no_data (fun _ => none) 2 2020 2020 Json.null
      (by decide) (fun _ => rfl)⟩

/-! ## C8 -/

/-- Orchestrator state after the single submission of a 2020..2020
TotalPopulation query whose task id is the integer 7: the stored map is
`{2020: "7"}`. -/
def q1234 : WorldPopAdvancedQuery :=
  (create_query_task (fun _ => some ⟨Json.num 7⟩) (init 1 2020 2020 Json.null) 2020).1

/-- C8 counterexample: a first `retrieve_results` run on `[7]` succeeds
with `{2020: 1234.0}` but hands back an emptied `taskids` list
(`__next_monitor` executes `del taskids[0]`); a second run on that same
(now empty) list object does not reproduce the `ResultMap` — it raises
`KeyError` while re-keying, because no raw response exists for the
stored task id. -/
theorem retrieve_results_mutates_taskids_counterexample :
    retrieve_results poll1234 5 q1234 [Json.num 7] =
      some (RetrieveOutcome.success [(2020, ResultValue.total 1234)], []) ∧
    retrieve_results poll1234 5 q1234 [] = some (RetrieveOutcome.exn, []) ∧
    ([] : List Json) ≠ [Json.num 7] := by
  refine ⟨?_, rfl, by simp⟩
  simp [q1234, poll1234, retrieve_results, next_monitor, create_query_task, init,
    dictInsert, pyStr, retrieve_results_pure, transform_raw_results, mapOption,
    dictLookup, pyFloat, parseDecimal, parseDecimalChars, digitsVal?, charDigit?]
  rfl

/-- C8 amended: `retrieve_results` is deterministic in its explicit
inputs, but it does not leave the `taskids` argument unchanged: the
monitor loop deletes every entry in place, so the list object is empty
when the call returns.  Re-running on that same mutated list with a
nonempty stored `year → taskId` map therefore yields `KeyError`
(modelled `RetrieveOutcome.exn`), not an identical `ResultMap`; only a
fresh copy of the original list value reproduces the result. -/
theorem retrieve_results_empties_taskids
    (poll : Json → Nat → PollResponse) (fuel fuel' : Nat)
    (q : WorldPopAdvancedQuery) (taskids : List Json)
    (out : RetrieveOutcome × List Json)
    (hrun : retrieve_results poll fuel q taskids = some out)
    (hstored : q.query_tasks_by_year ≠ []) :
    out.2 = [] ∧
    retrieve_results poll fuel' q [] = some (RetrieveOutcome.exn, []) := by
  constructor
  · unfold retrieve_results at hrun
    rcases hmon : next_monitor poll fuel taskids 0 [] with _ | raws <;>
      rw [hmon] at hrun
    · exact absurd hrun (by simp)
    · simp only [Option.some.injEq] at hrun
      rw [← hrun]
  · have hmon0 : next_monitor poll fuel' [] 0 [] = some [] := by
      cases fuel' <;> rfl
    unfold retrieve_results
    rw [hmon0]
    have hpure : retrieve_results_pure q.dataset_id q.query_tasks_by_year [] =
        RetrieveOutcome.exn := by
      unfold retrieve_results_pure
      rw [if_neg (by simp)]
      have htr : transform_raw_results q.dataset_id [] = some [] := by
        unfold transform_raw_results
        split <;> rfl
      rw [htr]
      rcases hq : q.query_tasks_by_year with _ | ⟨p, rest⟩
      · exact absurd hq hstored
      · simp [mapOption, dictLookup]
    simp only [hpure]

/-- C8 witness reusing the concrete first run of the counterexample
scenario. -/
theorem retrieve_results_empties_taskids_witness :
    ((RetrieveOutcome.success [(2020, ResultValue.total 1234)], ([] : List Json)).2 =
      ([] : List Json)) ∧
    retrieve_results poll1234 5 q1234 [] = some (RetrieveOutcome.exn, []) :=
  retrieve_results_empties_taskids poll1234 5 5 q1234 [Json.num 7]
    (RetrieveOutcome.success [(2020, ResultValue.total 1234)], [])
    (by
      simp [q1234, poll1234, retrieve_results, next_monitor, create_query_task, init,
        dictInsert, pyStr, retrieve_results_pure, transform_raw_results, mapOption,
        dictLookup, pyFloat, parseDecimal, parseDecimalChars, digitsVal?, charDigit?]
      rfl)
    (by
      intro hcontra
      have : (q1234.query_tasks_by_year).length = 1 := rfl
      rw [hcontra] at this
      simp at this)

/-! ## C9 -/

/-- C9: the concrete pyramid payload decodes to exactly one bucket with
classIndex 0, age range "0-4", male 10.0 and female 12.0; in general a
successful decode pairs the rows of the input with the buckets of the
output one-to-one, in input order. -/
theorem pyramid_decode_preserves_order :
    transform_pyramid_to_objects
        [[("class", Json.num 0), ("age", Json.str "0-4"),
          ("male", Json.str "10"), ("female", Json.str "12")]] =
      some [AgeSexClass.mk 0 "0-4" 10 12] ∧
    ∀ (rows : List (List (String × Json))) (buckets : List AgeSexClass),
      transform_pyramid_to_objects rows = some buckets →
      List.Forall₂ (fun item b => decode_pyramid_row item = some b) rows buckets := by
  constructor
  · simp [transform_pyramid_to_objects, mapOption, decode_pyramid_row, dictLookup,
      pyInt, pyFloat, pyStr, parseDecimal, parseDecimalChars, digitsVal?, charDigit?]
  · intro rows buckets h
    exact mapOption_forall₂ decode_pyramid_row rows buckets h

/-- C9 witness: the row-bucket pairing at the concrete payload. -/
theorem pyramid_decode_preserves_order_witness :
    List.Forall₂ (fun item b => decode_pyramid_row item = some b)
      [[("class", Json.num 0), ("age", Json.str "0-4"),
        ("male", Json.str "10"), ("female", Json.str "12")]]
      [AgeSexClass.mk 0 "0-4" 10 12] :=
  pyramid_decode_preserves_order.2 _ _ pyramid_decode_preserves_order.1

/-! ## C4 -/

theorem digit_bne_dot {c : Char} (h : c.isDigit = true) : (c != '.') = true := by
  rcases eq_or_ne c '.' with rfl | hne
  · exact absurd h (by decide)
  · simpa using hne

theorem takeWhile_digits_append (r : List Char) :
    ∀ l : List Char, (∀ c ∈ l, c.isDigit = true) →
      (l ++ '.' :: r).takeWhile (fun c => c != '.') = l ∧
      (l ++ '.' :: r).dropWhile (fun c => c != '.') = '.' :: r := by
  intro l
  induction l with
  | nil =>
    intro _
    constructor <;> simp [List.takeWhile, List.dropWhile]
  | cons c l ih =>
    intro h
    have hc : (c != '.') = true := digit_bne_dot (h c (by simp))
    have hrec := ih (fun d hd => h d (by simp [hd]))
    constructor
    · simpa [List.takeWhile_cons, hc] using hrec.1
    · simpa [List.dropWhile_cons, hc] using hrec.2

/-- C4: (i) a TotalPopulation task recorded for year 2020 that resolves
with payload `total_population = "1234.0"` aggregates to the final map
`{2020: 1234.0}`, re-keyed from the poll response's taskid through the
stored `year → taskId` map; (ii) submission records `str(taskid)` in
that map; (iii) the string-to-float conversion is exact for every
integral decimal string (within the 15-digit range where doubles
represent integers exactly), both with and without a trailing ".0". -/
theorem total_population_roundtrip_rekey :
    retrieve_results_pure 1 [(2020, "t1")]
        [⟨"t1", "finished", false, "",
          TaskData.totalPopulation (Json.str "1234.0")⟩] =
      RetrieveOutcome.success [(2020, ResultValue.total 1234)] ∧
    (create_query_task (fun _ => some ⟨Json.num 7⟩)
        (init 1 2020 2020 Json.null) 2020).1.query_tasks_by_year = [(2020, "7")] ∧
    ∀ (l : List Char) (n : Nat), l ≠ [] → (∀ c ∈ l, c.isDigit = true) →
      l.length ≤ 15 → digitsVal? l = some n →
      parseDecimal (String.mk (l ++ ['.', '0'])) = some (n : Rat) ∧
      parseDecimal (String.mk l) = some (n : Rat) := by
  refine ⟨?_, rfl, ?_⟩
  · simp [retrieve_results_pure, transform_raw_results, mapOption, dictLookup,
      pyFloat, parseDecimal, parseDecimalChars, digitsVal?, charDigit?]
  · intro l n hne hdig hlen hval
    have hle : l.isEmpty = false := by
      cases l with
      | nil => exact absurd rfl hne
      | cons a l => rfl
    constructor
    · show parseDecimalChars (l ++ ['.', '0']) = some (n : Rat)
      have hsplit := takeWhile_digits_append ['0'] l hdig
      unfold parseDecimalChars
      rw [show (['.', '0'] : List Char) = '.' :: ['0'] from rfl, hsplit.2]
      simp only [hsplit.1, hle, hval, List.isEmpty_cons, Bool.and_false]
      rw [show digitsVal? ['0'] = some 0 from rfl]
      norm_num
    · show parseDecimalChars l = some (n : Rat)
      have hdrop : l.dropWhile (fun c => c != '.') = [] :=
        List.dropWhile_eq_nil_iff.mpr (fun c hc => digit_bne_dot (hdig c hc))
      unfold parseDecimalChars
      rw [hdrop]
      simp only [hle, hval]
      simp

/-- C4 witness: exactness at the digit string "1234". -/
theorem total_population_roundtrip_rekey_witness :
    parseDecimal (String.mk (['1', '2', '3', '4'] ++ ['.', '0'])) =
      some ((1234 : Nat) : Rat) ∧
    parseDecimal (String.mk ['1', '2', '3', '4']) = some ((1234 : Nat) : Rat) :=
  total_population_roundtrip_rekey.2.2 ['1', '2', '3', '4'] 1234
    (by decide) (by decide) (by decide) (by decide)
